import Mathlib

/-!
Shallow embedding of the pictransformer_birefnet background-removal service.

The embedding models the parts of the repository that the verified claims
talk about:

* PIL images abstracted to width, height and color mode (plus a separate
  pixel-level image type used for the color normalization step);
* the three model adapters (BiRefNet, RMBG-2.0, BEN2) and their
  preprocess / predict / postprocess stages;
* the shared `BackgroundRemovalModel.__call__` driver and the RMBG2
  override of it;
* the model registry (`models/registry.py`) as explicit state passing;
* the HTTP orchestrator `remove_background` (`main.py`) as an event trace.

The neural networks themselves are opaque: they appear as function
parameters (or, for the external BEN2 package, as a definition modelled
from the spec, marked as such below).
-/

namespace PicT

/-- PIL color modes used by the repository (RGB, RGBA, grayscale L,
grayscale with alpha LA, palette P, palette with alpha PA). -/
inductive Mode
  | RGB | RGBA | L | LA | P | PA
  deriving DecidableEq, Repr

/-- A PIL image abstracted to its geometry and color mode. -/
structure Img where
  width : Nat
  height : Nat
  mode : Mode
  deriving DecidableEq, Repr

/-- PIL Image.putalpha mode promotion: an image without an alpha band is
promoted to the alpha form of its base mode (L to LA, P to PA, everything
with base RGB to RGBA); images that already carry alpha keep their mode. -/
def putalphaMode : Mode → Mode
  | Mode.L => Mode.LA
  | Mode.LA => Mode.LA
  | Mode.P => Mode.PA
  | Mode.PA => Mode.PA
  | _ => Mode.RGBA

/-- PIL Image.putalpha on a copy of the image: only the mode changes
(promoted to the matching alpha mode); width and height are unchanged.
The mask argument is the alpha band being attached. -/
def putalphaI (img : Img) (_mask : Img) : Img :=
  { img with mode := putalphaMode img.mode }

/-- torchvision ToPILImage on a single-channel float tensor: the tensor is
scaled to bytes and becomes a grayscale (mode L) image of the same size. -/
def toPILImageL (pred : Img) : Img :=
  { pred with mode := Mode.L }

/-- Ceiling to the next multiple of 32, as computed in
birefnet.py lines 47 and 48: new_w = ((w + 31) // 32) * 32. -/
def mult32ceil (n : Nat) : Nat :=
  ((n + 31) / 32) * 32

/-- BiRefNetModel.preprocess (birefnet.py lines 41 to 70) at the
geometry/mode level.  First the image is resized (LANCZOS) to the
ceil-to-multiple-of-32 size when either dimension is not already a
multiple of 32; then an RGBA image is composited onto a white background
and any other non-RGB mode is converted to RGB.  The Bool records whether
the resize branch was taken. -/
def birefnet_preprocessT (img : Img) : Img × Bool :=
  let nw := mult32ceil img.width
  let nh := mult32ceil img.height
  let resized := nw != img.width || nh != img.height
  let img1 := if resized then { img with width := nw, height := nh } else img
  let img2 :=
    if img1.mode = Mode.RGBA then { img1 with mode := Mode.RGB }
    else if img1.mode ≠ Mode.RGB then { img1 with mode := Mode.RGB }
    else img1
  (img2, resized)

/-- The mask built in BiRefNetModel.postprocess (birefnet.py lines 89
and 90): ToPILImage of the prediction, resized to the size of the
original (pre-padding) image. -/
def birefnet_mask (pred : Img) (original : Img) : Img :=
  { toPILImageL pred with width := original.width, height := original.height }

/-- BiRefNetModel.postprocess (birefnet.py lines 87 to 95): resize the
predicted mask back to the original image size, copy the original image
and attach the mask as its alpha channel. -/
def birefnet_postprocessI (pred : Img) (original : Img) : Img :=
  putalphaI original (birefnet_mask pred original)

/-- The full BiRefNet pipeline postprocess(predict(preprocess(img)), img),
with the network itself opaque (a function from the preprocessed tensor
to the predicted mask). -/
def birefnet_pipelineI (model : Img → Img) (img : Img) : Img :=
  birefnet_postprocessI (model (birefnet_preprocessT img).1) img

/-- RMBG2Model.preprocess (rmbg.py lines 133 to 154) at the geometry/mode
level: RGBA is composited onto white, other non-RGB modes are converted
to RGB, then the fixed transform resizes to the constant 1024 x 1024
input resolution. -/
def rmbg2_preprocessI (img : Img) : Img :=
  let img1 :=
    if img.mode = Mode.RGBA then { img with mode := Mode.RGB }
    else if img.mode ≠ Mode.RGB then { img with mode := Mode.RGB }
    else img
  { img1 with width := 1024, height := 1024 }

/-- RMBG2Model.postprocess (rmbg.py lines 188 to 196): same shape as the
BiRefNet postprocess, with the mask resized to the original image size. -/
def rmbg2_postprocessI (pred : Img) (original : Img) : Img :=
  putalphaI original { toPILImageL pred with width := original.width, height := original.height }

/-- The full RMBG2 pipeline with the network opaque. -/
def rmbg2_pipelineI (model : Img → Img) (img : Img) : Img :=
  rmbg2_postprocessI (model (rmbg2_preprocessI img)) img

/-- BEN2Model.preprocess (ben2.py lines 31 to 33): the image is returned
unchanged, preprocessing is delegated to the external BEN2 package. -/
def ben2_preprocessI (img : Img) : Img :=
  img

/-- Modelled from the spec: the external BEN2 package (the call
self.model.inference in ben2.py line 39) is not part of this repository.
Section 4.2 of the spec treats every adapter invoke as returning an RGBA
image and section 3 requires the result to keep the original input
resolution, so the opaque inference is modelled as returning an RGBA
image of the input image size. -/
def ben2_inferenceI (img : Img) : Img :=
  { img with mode := Mode.RGBA }

/-- BEN2Model.postprocess (ben2.py lines 55 to 57): the prediction is
already the final image and is returned unchanged. -/
def ben2_postprocessI (pred : Img) (_original : Img) : Img :=
  pred

/-- The full BEN2 pipeline, with the external inference modelled from
the spec as above. -/
def ben2_pipelineI (img : Img) : Img :=
  ben2_postprocessI (ben2_inferenceI (ben2_preprocessI img)) img

/-! Pixel-level image model, used for the color normalization step. -/

/-- One pixel, as RGBA byte channels. -/
structure Pix where
  r : Nat
  g : Nat
  b : Nat
  a : Nat
  deriving DecidableEq, Repr

/-- A PIL image with its pixel contents. For modes without an alpha band
the alpha channel of a pixel is 255 by convention. -/
structure PixImage where
  width : Nat
  height : Nat
  mode : Mode
  px : Nat → Nat → Pix

/-- Pillow fixed-point byte multiply MULDIV255(a, b): with
t = a * b + 128, the result is ((t >> 8) + t) >> 8. -/
def muldiv255 (a b : Nat) : Nat :=
  let t := a * b + 128
  (t / 256 + t) / 256

/-- Pillow paste-with-mask blending of one channel, BLEND(mask, in1, in2):
MULDIV255(in1, 255 - mask) + MULDIV255(in2, mask), where in1 is the
background channel and in2 the pasted source channel. -/
def blendChan (mask bg fg : Nat) : Nat :=
  muldiv255 bg (255 - mask) + muldiv255 fg mask

/-- The color-mode normalization in RMBG2Model.preprocess (rmbg.py lines
135 to 141): an RGBA image is pasted onto an opaque white RGB background
using its own alpha band as the paste mask; any other non-RGB mode is
converted to RGB. -/
def rmbg2_normalize (img : PixImage) : PixImage :=
  if img.mode = Mode.RGBA then
    { img with
      mode := Mode.RGB
      px := fun x y =>
        let p := img.px x y
        { r := blendChan p.a 255 p.r
          g := blendChan p.a 255 p.g
          b := blendChan p.a 255 p.b
          a := 255 } }
  else if img.mode ≠ Mode.RGB then
    { img with mode := Mode.RGB, px := fun x y => { img.px x y with a := 255 } }
  else img

/-- The color-mode normalization in BiRefNetModel.preprocess
(birefnet.py lines 56 to 63), the same code as in RMBG2Model.preprocess. -/
def birefnet_normalize (img : PixImage) : PixImage :=
  if img.mode = Mode.RGBA then
    { img with
      mode := Mode.RGB
      px := fun x y =>
        let p := img.px x y
        { r := blendChan p.a 255 p.r
          g := blendChan p.a 255 p.g
          b := blendChan p.a 255 p.b
          a := 255 } }
  else if img.mode ≠ Mode.RGB then
    { img with mode := Mode.RGB, px := fun x y => { img.px x y with a := 255 } }
  else img

/-- BEN2Model.preprocess at the pixel level (ben2.py lines 31 to 33):
the identity, no color normalization is performed. -/
def ben2_preprocessPix (img : PixImage) : PixImage :=
  img

/-! Precision fallback (predict stage of each adapter). -/

/-- Numeric precision of a model invocation. -/
inductive Prec
  | half | full
  deriving DecidableEq, Repr

/-- BEN2Model.predict (ben2.py lines 35 to 53), with the external
inference call opaque (a function of the precision the model currently
holds and of the refine_foreground flag).  On an exception, when the
adapter runs in half precision the model is converted to float and the
inference is attempted once more; otherwise the exception propagates.
The returned list is the trace of attempted precisions. -/
def ben2_predict (hp : Bool) (refine : Bool)
    (infer : Prec → Bool → Except String Img) : Except String Img × List Prec :=
  let p0 := if hp then Prec.half else Prec.full
  match infer p0 refine with
  | Except.ok r => (Except.ok r, [p0])
  | Except.error e =>
      if hp then (infer Prec.full refine, [p0, Prec.full])
      else (Except.error e, [p0])

/-- RMBG2Model.predict (rmbg.py lines 156 to 186): a single inference at
the precision implied by half_precision; there is no retry and no
precision fallback in this adapter. -/
def rmbg2_predictT (hp : Bool)
    (infer : Prec → Except String Img) : Except String Img × List Prec :=
  let p0 := if hp then Prec.half else Prec.full
  (infer p0, [p0])

/-- BiRefNetModel.predict (birefnet.py lines 72 to 85): the except block
only logs and re-raises, so again a single inference attempt with no
fallback. -/
def birefnet_predictT (hp : Bool)
    (infer : Prec → Except String Img) : Except String Img × List Prec :=
  let p0 := if hp then Prec.half else Prec.full
  (infer p0, [p0])

/-! The shared call driver. -/

/-- BackgroundRemovalModel.__call__ (base.py lines 38 to 49): preprocess,
optionally cast to half, predict, postprocess, then clear_gpu_memory and
return.  Any exception is caught and re-raised as
RuntimeError("Error processing image: " + message); clear_gpu_memory runs
only on the success path, there is no finally block.  The Bool records
whether clear_gpu_memory was invoked. -/
def base_call {α β : Type} (pre : Img → Except String α) (hp : Bool) (toHalf : α → α)
    (pred : α → Except String β) (post : β → Img → Except String Img)
    (img : Img) : Except String Img × Bool :=
  match pre img with
  | Except.error e => (Except.error ("Error processing image: " ++ e), false)
  | Except.ok t =>
      let t2 := if hp then toHalf t else t
      match pred t2 with
      | Except.error e => (Except.error ("Error processing image: " ++ e), false)
      | Except.ok p =>
          match post p img with
          | Except.error e => (Except.error ("Error processing image: " ++ e), false)
          | Except.ok r => (Except.ok r, true)

/-- RMBG2Model.__call__ (rmbg.py lines 198 to 229): its own driver,
which never invokes clear_gpu_memory (not even on success), re-raises
exceptions unchanged, and accepts an enable_refinement argument that the
body never uses.  The Bool records whether clear_gpu_memory was invoked
(always false). -/
def rmbg2_call {α β : Type} (_enable_refinement : Bool)
    (pre : Img → Except String α) (pred : α → Except String β)
    (post : β → Img → Except String Img) (img : Img) : Except String Img × Bool :=
  (match pre img with
   | Except.error e => Except.error e
   | Except.ok t =>
       match pred t with
       | Except.error e => Except.error e
       | Except.ok p => post p img,
   false)

/-! The model registry (models/registry.py) as explicit state passing. -/

/-- A live adapter instance.  objId models Python object identity (two
instances are the same object exactly when their objId agree, ids are
allocated from a counter and never reused).  loadCalls counts how often
load_model was invoked on the instance; weightsLoaded says whether the
model attribute holds network weights (is not None). -/
structure MInst where
  objId : Nat
  name : String
  loadCalls : Nat
  weightsLoaded : Bool
  deriving DecidableEq, Repr

/-- The registry state: the registered model names (the _models dict) and
the cached instances (the _instances dict), plus the identity counter. -/
structure RegState where
  models : List String
  instances : List (String × MInst)
  nextId : Nat
  deriving DecidableEq, Repr

/-- Dictionary lookup in the _instances mapping. -/
def lookupInst : List (String × MInst) → String → Option MInst
  | [], _ => none
  | (k, v) :: t, n => if k = n then some v else lookupInst t n

/-- How many cached entries a name has (for the single-instance
invariant). -/
def keyCount (l : List (String × MInst)) (n : String) : Nat :=
  (l.filter (fun p => p.1 = n)).length

/-- ModelRegistry.get_model (registry.py lines 29 to 46).  Unknown names
give None.  A cached instance is returned as is.  Otherwise a fresh
instance is constructed; when load is true its load_model routine is
invoked (modelled by the loadOk oracle, since loading downloads weights
and can fail); on failure the exception is caught and None is returned
with nothing cached.  The constructed instance is cached and returned. -/
def get_model (loadOk : String → Bool) (s : RegState) (name : String)
    (load : Bool) : Option MInst × RegState :=
  if name ∈ s.models then
    match lookupInst s.instances name with
    | some inst => (some inst, s)
    | none =>
        if load && !(loadOk name) then
          (none, { s with nextId := s.nextId + 1 })
        else
          (some { objId := s.nextId, name := name,
                  loadCalls := if load then 1 else 0, weightsLoaded := load },
           { s with
               instances :=
                 (name, { objId := s.nextId, name := name,
                          loadCalls := if load then 1 else 0,
                          weightsLoaded := load }) :: s.instances,
               nextId := s.nextId + 1 })
  else (none, s)

/-- ModelRegistry.get_available_models (registry.py lines 59 to 67): for
every registered name, report whether it is cached (loaded) and, when
cached, the metadata of the instance obtained through
get_model(name, load=False). -/
def get_available_models (loadOk : String → Bool) (s : RegState) :
    List (String × Bool × Option MInst) :=
  s.models.map (fun n =>
    (n, (lookupInst s.instances n).isSome,
     if (lookupInst s.instances n).isSome then (get_model loadOk s n false).1
     else none))

/-- The registry state right after ModelRegistry.__init__ registered the
three default adapters (registry.py lines 18 to 22 and line 70). -/
def initialRegistry : RegState :=
  { models := ["rmbg2", "ben2", "birefnet"], instances := [], nextId := 0 }

/-! The HTTP orchestrator remove_background (main.py lines 90 to 148). -/

/-- The parts of an incoming request that drive the control flow. -/
structure Request where
  contentTypeImage : Bool
  modelName : String
  payloadEmpty : Bool
  payloadDecodes : Bool
  enableRefinement : Bool
  deriving DecidableEq, Repr

/-- Observable events of one remove_background request. -/
inductive Ev
  | resolveModel (name : String)
  | invoke (name : String) (enableRefinement : Bool)
  | errorResponse (code : Nat) (msg : String)
  | imageResponse
  deriving DecidableEq, Repr

/-- remove_background (main.py lines 90 to 148) as an event trace: first
the content type check, then registry.get_model(model) (line 106), only
after that the payload is read and checked for emptiness (lines 114 to
117) and decodability (lines 119 to 123), and finally the adapter is
invoked with enable_refinement passed unconditionally (line 130). -/
def remove_background (loadOk : String → Bool) (reg : RegState)
    (req : Request) : List Ev :=
  if req.contentTypeImage = false then
    [Ev.errorResponse 400 "File must be an image"]
  else
    Ev.resolveModel req.modelName ::
      match (get_model loadOk reg req.modelName true).1 with
      | none => [Ev.errorResponse 400 ("Model " ++ req.modelName ++ " not available")]
      | some _ =>
          if req.payloadEmpty then
            [Ev.errorResponse 400 "Empty file received"]
          else if req.payloadDecodes = false then
            [Ev.errorResponse 400 "Invalid image format"]
          else
            [Ev.invoke req.modelName req.enableRefinement, Ev.imageResponse]

/-- supports_refinement advertised by RMBG2Model.metadata
(rmbg.py line 239). -/
def rmbg2_supports_refinement : Bool := false

/-- supports_refinement advertised by BiRefNetModel.metadata
(birefnet.py line 105). -/
def birefnet_supports_refinement : Bool := false

/-- supports_refinement advertised by BEN2Model.metadata
(ben2.py line 71). -/
def ben2_supports_refinement : Bool := true

/-! Helper lemmas. -/

/-- mult32ceil n is the least multiple of 32 greater than or equal to n. -/
theorem mult32ceil_spec (n : Nat) :
    32 ∣ mult32ceil n ∧ n ≤ mult32ceil n ∧
      ∀ m, 32 ∣ m → n ≤ m → mult32ceil n ≤ m := by
  refine ⟨?_, ?_, fun m hm hnm => ?_⟩ <;> unfold mult32ceil <;> omega

/-- When n is already a multiple of 32, the ceiling is n itself. -/
theorem mult32ceil_eq_self {n : Nat} (h : 32 ∣ n) : mult32ceil n = n := by
  unfold mult32ceil; omega

/-- A name that lookupInst misses contributes no cached entries. -/
theorem lookupInst_none_keyCount {l : List (String × MInst)} {n : String}
    (h : lookupInst l n = none) : keyCount l n = 0 := by
  induction l with
  | nil => rfl
  | cons p t ih =>
      obtain ⟨k, v⟩ := p
      by_cases hk : k = n
      · simp [lookupInst, hk] at h
      · simp only [lookupInst, if_neg hk] at h
        simpa [keyCount, hk] using ih h

/-- Caching one more entry adds one to the count of its own key and
leaves every other count unchanged. -/
theorem keyCount_cons (k : String) (v : MInst) (t : List (String × MInst)) (n : String) :
    keyCount ((k, v) :: t) n = (if k = n then 1 else 0) + keyCount t n := by
  by_cases hk : k = n <;> simp [keyCount, List.filter, hk, Nat.add_comm]

/-! Claim theorems. -/

/-- C1 counterexample: the BiRefNet pipeline applied to a 1 x 1 grayscale
(mode L) image keeps the original dimensions but returns an LA image, not
an RGBA image, because PIL putalpha promotes a grayscale original to LA.
This refutes the claim that the pipeline returns an RGBA image for every
input image. -/
theorem C1_counterexample :
    (birefnet_pipelineI (fun t => { t with mode := Mode.L }) ⟨1, 1, Mode.L⟩).mode = Mode.LA
    ∧ Mode.LA ≠ Mode.RGBA
    ∧ (birefnet_pipelineI (fun t => { t with mode := Mode.L }) ⟨1, 1, Mode.L⟩).width = 1
    ∧ (birefnet_pipelineI (fun t => { t with mode := Mode.L }) ⟨1, 1, Mode.L⟩).height = 1 := by
  refine ⟨rfl, by decide, rfl, rfl⟩

/-- C1 amended: for every adapter and every input image the pipeline
returns an image whose width and height equal the original input
dimensions, whatever the network outputs; the result mode is RGBA
whenever the input image is RGB or RGBA (which is all the orchestrator
ever passes, main.py line 126), while a bare grayscale or palette input
is promoted to LA or PA instead.  The BEN2 network is the spec-modelled
opaque inference. -/
theorem C1_theorem (bm rm : Img → Img) (img : Img) :
    ((birefnet_pipelineI bm img).width = img.width
      ∧ (birefnet_pipelineI bm img).height = img.height)
    ∧ ((rmbg2_pipelineI rm img).width = img.width
      ∧ (rmbg2_pipelineI rm img).height = img.height)
    ∧ ((ben2_pipelineI img).width = img.width
      ∧ (ben2_pipelineI img).height = img.height)
    ∧ (ben2_pipelineI img).mode = Mode.RGBA
    ∧ (img.mode = Mode.RGB ∨ img.mode = Mode.RGBA →
        (birefnet_pipelineI bm img).mode = Mode.RGBA
        ∧ (rmbg2_pipelineI rm img).mode = Mode.RGBA) := by
  refine ⟨⟨rfl, rfl⟩, ⟨rfl, rfl⟩, ⟨rfl, rfl⟩, rfl, fun h => ?_⟩
  rcases h with h | h <;>
    simp [birefnet_pipelineI, rmbg2_pipelineI, birefnet_postprocessI,
      rmbg2_postprocessI, putalphaI, putalphaMode, h]

/-- C1 witness: the amended round-trip theorem evaluated on a concrete
5 x 7 RGB image with the identity standing in for the networks. -/
theorem C1_witness :
    (birefnet_pipelineI id ⟨5, 7, Mode.RGB⟩).width = 5
    ∧ (birefnet_pipelineI id ⟨5, 7, Mode.RGB⟩).mode = Mode.RGBA
    ∧ (rmbg2_pipelineI id ⟨5, 7, Mode.RGB⟩).mode = Mode.RGBA :=
  ⟨(C1_theorem id id ⟨5, 7, Mode.RGB⟩).1.1,
   ((C1_theorem id id ⟨5, 7, Mode.RGB⟩).2.2.2.2 (Or.inl rfl)).1,
   ((C1_theorem id id ⟨5, 7, Mode.RGB⟩).2.2.2.2 (Or.inl rfl)).2⟩

/-- C4 counterexample: on a concrete 1 x 1 RGBA image the BEN2 preprocess
returns the image unchanged, still in RGBA mode, while the RMBG2
normalization composites it onto white and yields RGB.  The three
adapters therefore do not perform identical color-mode normalization. -/
theorem C4_counterexample :
    (ben2_preprocessPix ⟨1, 1, Mode.RGBA, fun _ _ => ⟨200, 10, 10, 128⟩⟩).mode = Mode.RGBA
    ∧ (rmbg2_normalize ⟨1, 1, Mode.RGBA, fun _ _ => ⟨200, 10, 10, 128⟩⟩).mode = Mode.RGB
    ∧ Mode.RGBA ≠ Mode.RGB := by
  refine ⟨rfl, ?_, by decide⟩
  simp [rmbg2_normalize]

set_option maxRecDepth 4096 in
/-- C4 amended: the RMBG2 and BiRefNet adapters perform the identical
color-mode normalization (an RGBA image is composited onto an opaque
white background with the Pillow fixed-point paste blend, any other
non-RGB mode is converted to RGB), and the blend agrees with manual
compositing at the extremes (an opaque source channel is kept exactly,
a fully transparent one becomes white); the BEN2 preprocess performs no
normalization at all and returns the image unchanged, delegating the
work to the external BEN2 package. -/
theorem C4_theorem :
    (∀ img : PixImage, rmbg2_normalize img = birefnet_normalize img)
    ∧ (∀ img : PixImage, ben2_preprocessPix img = img)
    ∧ (∀ img : PixImage, img.mode = Mode.RGBA → (rmbg2_normalize img).mode = Mode.RGB)
    ∧ (∀ img : PixImage, img.mode ≠ Mode.RGBA → img.mode ≠ Mode.RGB →
        (rmbg2_normalize img).mode = Mode.RGB)
    ∧ (∀ c, c < 256 → blendChan 255 255 c = c)
    ∧ (∀ c, blendChan 0 255 c = 255) := by
  refine ⟨fun img => rfl, fun img => rfl, fun img h => ?_, fun img h1 h2 => ?_,
    by decide, fun c => ?_⟩
  · simp [rmbg2_normalize, h]
  · simp [rmbg2_normalize, h1, h2]
  · simp [blendChan, muldiv255]

/-- C4 witness: the amended normalization theorem evaluated on a concrete
RGBA pixel image and concrete channel values. -/
theorem C4_witness :
    rmbg2_normalize ⟨2, 2, Mode.RGBA, fun _ _ => ⟨5, 6, 7, 255⟩⟩
        = birefnet_normalize ⟨2, 2, Mode.RGBA, fun _ _ => ⟨5, 6, 7, 255⟩⟩
    ∧ blendChan 255 255 200 = 200
    ∧ blendChan 0 255 200 = 255 :=
  ⟨(C4_theorem.1 ⟨2, 2, Mode.RGBA, fun _ _ => ⟨5, 6, 7, 255⟩⟩),
   C4_theorem.2.2.2.2.1 200 (by decide),
   C4_theorem.2.2.2.2.2 200⟩

/-- C9: for every input size with positive dimensions, the BiRefNet
preprocess resizes to the smallest multiple of 32 at least the width and
the smallest multiple of 32 at least the height, computed exactly as
((w + 31) / 32) * 32; when both dimensions are already multiples of 32
the resize branch is not taken; and the postprocess mask is resized back
to the original pre-padding image size, so the final image keeps the
original dimensions. -/
theorem C9_theorem (w h : Nat) (_hw : 1 ≤ w) (_hh : 1 ≤ h) :
    (32 ∣ mult32ceil w ∧ w ≤ mult32ceil w
      ∧ ∀ m, 32 ∣ m → w ≤ m → mult32ceil w ≤ m)
    ∧ (32 ∣ mult32ceil h ∧ h ≤ mult32ceil h
      ∧ ∀ m, 32 ∣ m → h ≤ m → mult32ceil h ≤ m)
    ∧ (∀ mo : Mode,
        (birefnet_preprocessT ⟨w, h, mo⟩).1.width = mult32ceil w
        ∧ (birefnet_preprocessT ⟨w, h, mo⟩).1.height = mult32ceil h)
    ∧ (32 ∣ w → 32 ∣ h → ∀ mo : Mode, (birefnet_preprocessT ⟨w, h, mo⟩).2 = false)
    ∧ (∀ pred original : Img,
        (birefnet_mask pred original).width = original.width
        ∧ (birefnet_mask pred original).height = original.height
        ∧ (birefnet_postprocessI pred original).width = original.width
        ∧ (birefnet_postprocessI pred original).height = original.height) := by
  refine ⟨mult32ceil_spec w, mult32ceil_spec h, fun mo => ?_, fun hdw hdh mo => ?_,
    fun pred original => ⟨rfl, rfl, rfl, rfl⟩⟩
  · by_cases hres : (mult32ceil w != w || mult32ceil h != h) = true
    · simp only [birefnet_preprocessT, hres, if_true]
      constructor <;> (split <;> try split) <;> rfl
    · have hres2 := hres
      simp only [Bool.or_eq_true, bne_iff_ne, ne_eq, not_or, not_not] at hres2
      simp only [birefnet_preprocessT, hres, if_false, Bool.false_eq_true]
      constructor <;> (split <;> try split) <;> simp [hres2.1, hres2.2]
  · simp [birefnet_preprocessT, mult32ceil_eq_self hdw, mult32ceil_eq_self hdh]

/-- C9 witness: the resize arithmetic evaluated at the concrete size
33 x 64, where the width rounds up to 64 and the height stays. -/
theorem C9_witness :
    1 ≤ 33 ∧ 1 ≤ 64
    ∧ ((32 ∣ mult32ceil 33 ∧ 33 ≤ mult32ceil 33
        ∧ ∀ m, 32 ∣ m → 33 ≤ m → mult32ceil 33 ≤ m)
      ∧ (32 ∣ mult32ceil 64 ∧ 64 ≤ mult32ceil 64
        ∧ ∀ m, 32 ∣ m → 64 ≤ m → mult32ceil 64 ≤ m)
      ∧ (∀ mo : Mode,
          (birefnet_preprocessT ⟨33, 64, mo⟩).1.width = mult32ceil 33
          ∧ (birefnet_preprocessT ⟨33, 64, mo⟩).1.height = mult32ceil 64)
      ∧ (32 ∣ 33 → 32 ∣ 64 → ∀ mo : Mode,
          (birefnet_preprocessT ⟨33, 64, mo⟩).2 = false)
      ∧ (∀ pred original : Img,
          (birefnet_mask pred original).width = original.width
          ∧ (birefnet_mask pred original).height = original.height
          ∧ (birefnet_postprocessI pred original).width = original.width
          ∧ (birefnet_postprocessI pred original).height = original.height)) :=
  ⟨by decide, by decide, C9_theorem 33 64 (by decide) (by decide)⟩

/-- C2 counterexample: with the adapter in reduced precision and an
inference that fails at half precision but would succeed at full
precision, RMBG2Model.predict performs no retry: it attempts exactly one
inference, at half precision, and surfaces the raw originating error.
This refutes the claim that every adapter retries once at full
precision. -/
theorem C2_counterexample :
    rmbg2_predictT true
        (fun p => match p with
          | Prec.half => Except.error "half precision failure"
          | Prec.full => Except.ok ⟨1, 1, Mode.L⟩)
      = (Except.error "half precision failure", [Prec.half])
    ∧ ben2_predict true false
        (fun p _ => match p with
          | Prec.half => Except.error "half precision failure"
          | Prec.full => Except.ok ⟨1, 1, Mode.L⟩)
      = (Except.ok ⟨1, 1, Mode.L⟩, [Prec.half, Prec.full]) :=
  ⟨rfl, rfl⟩

/-- C2 amended: only the BEN2 adapter implements the precision fallback.
Under reduced precision a BEN2 prediction failure is retried exactly once
after converting the model to full precision, and when the retry also
fails the base call driver surfaces the error as
RuntimeError("Error processing image: " + originating message) rather
than a dedicated model inference failed error.  The RMBG2 and BiRefNet
predict methods attempt the inference exactly once at the configured
precision and propagate any failure without retry. -/
theorem C2_theorem (infer : Prec → Bool → Except String Img) (refine : Bool)
    (e1 e2 : String) (img : Img)
    (h1 : infer Prec.half refine = Except.error e1)
    (h2 : infer Prec.full refine = Except.error e2) :
    ben2_predict true refine infer = (Except.error e2, [Prec.half, Prec.full])
    ∧ (∀ (inf2 : Prec → Except String Img) (hp : Bool),
        (rmbg2_predictT hp inf2).2 = [if hp then Prec.half else Prec.full]
        ∧ (birefnet_predictT hp inf2).2 = [if hp then Prec.half else Prec.full]
        ∧ (rmbg2_predictT hp inf2).1 = inf2 (if hp then Prec.half else Prec.full))
    ∧ (base_call (fun i => Except.ok i) false id
        (fun _ : Img => (ben2_predict true refine infer).1)
        (fun p _ => Except.ok p) img).1
      = Except.error ("Error processing image: " ++ e2) := by
  have hb : ben2_predict true refine infer = (Except.error e2, [Prec.half, Prec.full]) := by
    simp [ben2_predict, h1, h2]
  refine ⟨hb, fun inf2 hp => ⟨rfl, rfl, rfl⟩, ?_⟩
  simp [base_call, hb]

/-- C2 witness: the amended fallback theorem evaluated on a concrete
oracle that fails at both precisions with distinct messages. -/
theorem C2_witness :
    (fun (p : Prec) (_ : Bool) => match p with
        | Prec.half => (Except.error "half boom" : Except String Img)
        | Prec.full => Except.error "full boom") Prec.half true
      = Except.error "half boom"
    ∧ (fun (p : Prec) (_ : Bool) => match p with
        | Prec.half => (Except.error "half boom" : Except String Img)
        | Prec.full => Except.error "full boom") Prec.full true
      = Except.error "full boom"
    ∧ ben2_predict true true
        (fun (p : Prec) (_ : Bool) => match p with
          | Prec.half => (Except.error "half boom" : Except String Img)
          | Prec.full => Except.error "full boom")
      = (Except.error "full boom", [Prec.half, Prec.full])
    ∧ (base_call (fun i => Except.ok i) false id
        (fun _ : Img =>
          (ben2_predict true true
            (fun (p : Prec) (_ : Bool) => match p with
              | Prec.half => (Except.error "half boom" : Except String Img)
              | Prec.full => Except.error "full boom")).1)
        (fun p _ => Except.ok p) ⟨3, 3, Mode.RGB⟩).1
      = Except.error ("Error processing image: " ++ "full boom") :=
  ⟨rfl, rfl,
   (C2_theorem _ true "half boom" "full boom" ⟨3, 3, Mode.RGB⟩ rfl rfl).1,
   (C2_theorem _ true "half boom" "full boom" ⟨3, 3, Mode.RGB⟩ rfl rfl).2.2⟩

/-- C3 counterexample: when preprocess raises, the base call driver
re-raises the wrapped error without invoking clear_gpu_memory (the Bool
component is false), and the RMBG2 override never invokes
clear_gpu_memory even on a fully successful call.  This refutes the
claim that accelerator memory is released regardless of outcome. -/
theorem C3_counterexample :
    base_call (fun _ : Img => (Except.error "preprocess boom" : Except String Img))
        false id (fun t : Img => Except.ok t) (fun p _ => Except.ok p) ⟨4, 4, Mode.RGB⟩
      = (Except.error ("Error processing image: " ++ "preprocess boom"), false)
    ∧ (rmbg2_call true (fun i : Img => Except.ok i) (fun t : Img => Except.ok t)
        (fun p _ => Except.ok p) ⟨4, 4, Mode.RGB⟩).2 = false
    ∧ (rmbg2_call true (fun i : Img => Except.ok i) (fun t : Img => Except.ok t)
        (fun p _ => Except.ok p) ⟨4, 4, Mode.RGB⟩).1 = Except.ok ⟨4, 4, Mode.RGB⟩ :=
  ⟨rfl, rfl, rfl⟩

/-- C3 amended: the base call driver (used by BEN2 and BiRefNet) invokes
clear_gpu_memory exactly on the success path: the memory is released if
and only if the call returns a result, and every failing stage skips the
release; the RMBG2 override never invokes clear_gpu_memory at all. -/
theorem C3_theorem {α β : Type} (pre : Img → Except String α) (hp : Bool)
    (toHalf : α → α) (pred : α → Except String β)
    (post : β → Img → Except String Img) (img : Img) :
    ((base_call pre hp toHalf pred post img).2 = true ↔
      ∃ r, (base_call pre hp toHalf pred post img).1 = Except.ok r)
    ∧ (∀ (b : Bool) (pre2 : Img → Except String α) (pred2 : α → Except String β)
        (post2 : β → Img → Except String Img),
        (rmbg2_call b pre2 pred2 post2 img).2 = false) := by
  refine ⟨?_, fun b pre2 pred2 post2 => rfl⟩
  unfold base_call
  rcases hpre : pre img with e | t
  · simp
  · rcases hpred : pred (if hp then toHalf t else t) with e | p
    · simp [hpred]
    · rcases hpost : post p img with e | r
      · simp [hpred, hpost]
      · simp [hpred, hpost]

/-- C3 witness: the amended release discipline evaluated on concrete
stage functions that all succeed. -/
theorem C3_witness :
    ((base_call (fun i : Img => Except.ok i) false id (fun t : Img => Except.ok t)
        (fun p _ => Except.ok p) ⟨2, 3, Mode.RGB⟩).2 = true ↔
      ∃ r, (base_call (fun i : Img => Except.ok i) false id (fun t : Img => Except.ok t)
        (fun p _ => Except.ok p) ⟨2, 3, Mode.RGB⟩).1 = Except.ok r)
    ∧ (∀ (b : Bool) (pre2 : Img → Except String Img) (pred2 : Img → Except String Img)
        (post2 : Img → Img → Except String Img),
        (rmbg2_call b pre2 pred2 post2 ⟨2, 3, Mode.RGB⟩).2 = false) :=
  C3_theorem (fun i : Img => Except.ok i) false id (fun t : Img => Except.ok t)
    (fun p _ => Except.ok p) ⟨2, 3, Mode.RGB⟩

/-- C6: when get_model(name, load=True) returns an instance, an
immediately following get_model(name, load=True) on the resulting
registry state returns the identical instance (same object id, hence
Python object identity) and leaves the state unchanged; and the step
preserves the invariant that every name has at most one cached
instance. -/
theorem C6_theorem (loadOk : String → Bool) (s s1 : RegState) (name : String)
    (inst : MInst) (h : get_model loadOk s name true = (some inst, s1)) :
    get_model loadOk s1 name true = (some inst, s1)
    ∧ ∀ n, keyCount s.instances n ≤ 1 → keyCount s1.instances n ≤ 1 := by
  by_cases hm : name ∈ s.models
  · rcases hl : lookupInst s.instances name with _ | i
    · by_cases hld : loadOk name = true
      · simp only [get_model, if_pos hm, hl, hld, Bool.not_true, Bool.and_false,
          Bool.true_and, Bool.not_eq_true', if_neg] at h
        rw [if_neg (by simp)] at h
        obtain ⟨hi, hs⟩ := Prod.mk.injEq _ _ _ _ ▸ h
        obtain rfl := Option.some.injEq _ _ ▸ hi
        subst hs
        constructor
        · simp [get_model, hm, lookupInst]
        · intro n hn
          have h0 := lookupInst_none_keyCount hl
          rw [keyCount_cons]
          by_cases hkn : name = n
          · subst hkn
            simp [h0]
          · simpa [hkn] using hn
      · simp only [Bool.not_eq_true] at hld
        simp [get_model, if_pos hm, hl, hld] at h
    · simp only [get_model, if_pos hm, hl] at h
      obtain ⟨hi, hs⟩ := Prod.mk.injEq _ _ _ _ ▸ h
      obtain rfl := Option.some.injEq _ _ ▸ hi
      subst hs
      exact ⟨by simp [get_model, hm, hl], fun n hn => hn⟩
  · simp [get_model, if_neg hm] at h

/-- C6 witness: the identity guarantee evaluated on a first successful
load of rmbg2 from the initial registry state. -/
theorem C6_witness :
    get_model (fun _ => true) initialRegistry "rmbg2" true
      = (some { objId := 0, name := "rmbg2", loadCalls := 1, weightsLoaded := true },
         { models := ["rmbg2", "ben2", "birefnet"],
           instances :=
             [("rmbg2", { objId := 0, name := "rmbg2", loadCalls := 1, weightsLoaded := true })],
           nextId := 1 })
    ∧ (get_model (fun _ => true)
        { models := ["rmbg2", "ben2", "birefnet"],
          instances :=
            [("rmbg2", { objId := 0, name := "rmbg2", loadCalls := 1, weightsLoaded := true })],
          nextId := 1 } "rmbg2" true
        = (some { objId := 0, name := "rmbg2", loadCalls := 1, weightsLoaded := true },
           { models := ["rmbg2", "ben2", "birefnet"],
             instances :=
               [("rmbg2", { objId := 0, name := "rmbg2", loadCalls := 1, weightsLoaded := true })],
             nextId := 1 })
      ∧ ∀ n, keyCount initialRegistry.instances n ≤ 1 →
          keyCount
            [("rmbg2", { objId := 0, name := "rmbg2", loadCalls := 1, weightsLoaded := true })]
            n ≤ 1) :=
  ⟨by decide, C6_theorem (fun _ => true) initialRegistry _ "rmbg2" _ (by decide)⟩

/-- C7: on a registered name with no cached instance,
get_model(name, load=False) constructs and returns a weightless instance:
its load routine has not been invoked (loadCalls is zero) and no network
weights exist (the model attribute is still None). -/
theorem C7_theorem (loadOk : String → Bool) (s : RegState) (name : String)
    (h1 : name ∈ s.models) (h2 : lookupInst s.instances name = none) :
    get_model loadOk s name false
      = (some { objId := s.nextId, name := name, loadCalls := 0, weightsLoaded := false },
         { s with
             instances :=
               (name, { objId := s.nextId, name := name, loadCalls := 0,
                        weightsLoaded := false }) :: s.instances,
             nextId := s.nextId + 1 })
    ∧ ({ objId := s.nextId, name := name, loadCalls := 0,
         weightsLoaded := false } : MInst).loadCalls = 0
    ∧ ({ objId := s.nextId, name := name, loadCalls := 0,
         weightsLoaded := false } : MInst).weightsLoaded = false := by
  refine ⟨?_, rfl, rfl⟩
  simp [get_model, h1, h2]

/-- C7 witness: the weightless construction evaluated on ben2 in the
initial registry state. -/
theorem C7_witness :
    "ben2" ∈ initialRegistry.models
    ∧ lookupInst initialRegistry.instances "ben2" = none
    ∧ (get_model (fun _ => true) initialRegistry "ben2" false
        = (some { objId := 0, name := "ben2", loadCalls := 0, weightsLoaded := false },
           { models := ["rmbg2", "ben2", "birefnet"],
             instances :=
               [("ben2", { objId := 0, name := "ben2", loadCalls := 0,
                           weightsLoaded := false })],
             nextId := 1 })
      ∧ ({ objId := 0, name := "ben2", loadCalls := 0,
           weightsLoaded := false } : MInst).loadCalls = 0
      ∧ ({ objId := 0, name := "ben2", loadCalls := 0,
           weightsLoaded := false } : MInst).weightsLoaded = false) :=
  ⟨by decide, rfl, C7_theorem (fun _ => true) initialRegistry "ben2" (by decide) rfl⟩

/-- C8: get_model(name, load=False) on a registered, not yet cached name
caches the weightless instance; a subsequent get_model(name, load=True)
returns exactly that cached instance without invoking its load routine
(loadCalls stays zero, the model attribute stays None) and leaves the
state unchanged, so the same holds for every later call; and
get_available_models on the new state reports the name as loaded with
the weightless metadata. -/
theorem C8_theorem (loadOk : String → Bool) (s : RegState) (name : String)
    (h1 : name ∈ s.models) (h2 : lookupInst s.instances name = none) :
    get_model loadOk s name false
      = (some { objId := s.nextId, name := name, loadCalls := 0, weightsLoaded := false },
         { s with
             instances :=
               (name, { objId := s.nextId, name := name, loadCalls := 0,
                        weightsLoaded := false }) :: s.instances,
             nextId := s.nextId + 1 })
    ∧ get_model loadOk
        { s with
            instances :=
              (name, { objId := s.nextId, name := name, loadCalls := 0,
                       weightsLoaded := false }) :: s.instances,
            nextId := s.nextId + 1 } name true
      = (some { objId := s.nextId, name := name, loadCalls := 0, weightsLoaded := false },
         { s with
             instances :=
               (name, { objId := s.nextId, name := name, loadCalls := 0,
                        weightsLoaded := false }) :: s.instances,
             nextId := s.nextId + 1 })
    ∧ (name, true,
        some { objId := s.nextId, name := name, loadCalls := 0, weightsLoaded := false })
      ∈ get_available_models loadOk
          { s with
              instances :=
                (name, { objId := s.nextId, name := name, loadCalls := 0,
                         weightsLoaded := false }) :: s.instances,
              nextId := s.nextId + 1 } := by
  refine ⟨by simp [get_model, h1, h2], by simp [get_model, h1, lookupInst], ?_⟩
  refine List.mem_map.mpr ⟨name, h1, ?_⟩
  simp [get_model, h1, lookupInst]

/-- C8 witness: the permanent weightless caching evaluated on birefnet
in the initial registry state. -/
theorem C8_witness :
    "birefnet" ∈ initialRegistry.models
    ∧ lookupInst initialRegistry.instances "birefnet" = none
    ∧ (get_model (fun _ => true) initialRegistry "birefnet" false
        = (some { objId := 0, name := "birefnet", loadCalls := 0, weightsLoaded := false },
           { models := ["rmbg2", "ben2", "birefnet"],
             instances :=
               [("birefnet", { objId := 0, name := "birefnet", loadCalls := 0,
                               weightsLoaded := false })],
             nextId := 1 })
      ∧ get_model (fun _ => true)
          { models := ["rmbg2", "ben2", "birefnet"],
            instances :=
              [("birefnet", { objId := 0, name := "birefnet", loadCalls := 0,
                              weightsLoaded := false })],
            nextId := 1 } "birefnet" true
        = (some { objId := 0, name := "birefnet", loadCalls := 0, weightsLoaded := false },
           { models := ["rmbg2", "ben2", "birefnet"],
             instances :=
               [("birefnet", { objId := 0, name := "birefnet", loadCalls := 0,
                               weightsLoaded := false })],
             nextId := 1 })
      ∧ ("birefnet", true,
          some { objId := 0, name := "birefnet", loadCalls := 0, weightsLoaded := false })
        ∈ get_available_models (fun _ => true)
            { models := ["rmbg2", "ben2", "birefnet"],
              instances :=
                [("birefnet", { objId := 0, name := "birefnet", loadCalls := 0,
                                weightsLoaded := false })],
              nextId := 1 }) :=
  ⟨by decide, rfl, C8_theorem (fun _ => true) initialRegistry "birefnet" (by decide) rfl⟩

/-- C5 counterexample: RMBG2 advertises supports_refinement = false, yet
on a valid request for rmbg2 with the refinement flag set the
orchestrator invokes the adapter with enable_refinement = true.  This
refutes the claim that the flag is only passed to adapters advertising
refinement support. -/
theorem C5_counterexample :
    rmbg2_supports_refinement = false
    ∧ remove_background (fun _ => true) initialRegistry
        { contentTypeImage := true, modelName := "rmbg2", payloadEmpty := false,
          payloadDecodes := true, enableRefinement := true }
      = [Ev.resolveModel "rmbg2", Ev.invoke "rmbg2" true, Ev.imageResponse]
    ∧ Ev.invoke "rmbg2" true
      ∈ remove_background (fun _ => true) initialRegistry
          { contentTypeImage := true, modelName := "rmbg2", payloadEmpty := false,
            payloadDecodes := true, enableRefinement := true } := by
  refine ⟨rfl, by decide, by decide⟩

/-- C5 amended: on every request that reaches the invocation step the
orchestrator passes enable_refinement to the adapter unconditionally,
with no capability check, whatever the name and its advertised
supports_refinement value; the adapters that do not support refinement
simply accept and ignore the argument (the RMBG2 call override produces
the same outcome for both flag values). -/
theorem C5_theorem (loadOk : String → Bool) (reg : RegState) (req : Request)
    (inst : MInst) (s2 : RegState)
    (h1 : req.contentTypeImage = true)
    (h2 : req.payloadEmpty = false)
    (h3 : req.payloadDecodes = true)
    (h4 : get_model loadOk reg req.modelName true = (some inst, s2)) :
    remove_background loadOk reg req
      = [Ev.resolveModel req.modelName,
         Ev.invoke req.modelName req.enableRefinement, Ev.imageResponse]
    ∧ Ev.invoke req.modelName req.enableRefinement ∈ remove_background loadOk reg req
    ∧ (∀ (b1 b2 : Bool) (pre : Img → Except String Img) (pred : Img → Except String Img)
        (post : Img → Img → Except String Img) (img : Img),
        rmbg2_call b1 pre pred post img = rmbg2_call b2 pre pred post img) := by
  have h5 : (get_model loadOk reg req.modelName true).1 = some inst := by rw [h4]
  have htrace : remove_background loadOk reg req
      = [Ev.resolveModel req.modelName,
         Ev.invoke req.modelName req.enableRefinement, Ev.imageResponse] := by
    simp [remove_background, h1, h2, h3, h5]
  exact ⟨htrace, by rw [htrace]; simp, fun b1 b2 pre pred post img => rfl⟩

/-- C5 witness: the unconditional flag forwarding evaluated on a valid
ben2 request with the refinement flag set. -/
theorem C5_witness :
    remove_background (fun _ => true) initialRegistry
        { contentTypeImage := true, modelName := "ben2", payloadEmpty := false,
          payloadDecodes := true, enableRefinement := true }
      = [Ev.resolveModel "ben2", Ev.invoke "ben2" true, Ev.imageResponse]
    ∧ Ev.invoke "ben2" true
      ∈ remove_background (fun _ => true) initialRegistry
          { contentTypeImage := true, modelName := "ben2", payloadEmpty := false,
            payloadDecodes := true, enableRefinement := true }
    ∧ (∀ (b1 b2 : Bool) (pre : Img → Except String Img) (pred : Img → Except String Img)
        (post : Img → Img → Except String Img) (img : Img),
        rmbg2_call b1 pre pred post img = rmbg2_call b2 pre pred post img) :=
  C5_theorem (fun _ => true) initialRegistry
    { contentTypeImage := true, modelName := "ben2", payloadEmpty := false,
      payloadDecodes := true, enableRefinement := true }
    { objId := 0, name := "ben2", loadCalls := 1, weightsLoaded := true }
    { models := ["rmbg2", "ben2", "birefnet"],
      instances :=
        [("ben2", { objId := 0, name := "ben2", loadCalls := 1, weightsLoaded := true })],
      nextId := 1 }
    rfl rfl rfl (by decide)

/-- C10 counterexample: a request with empty image bytes for the valid
model rmbg2 does produce the InvalidInput response, but the trace shows
the registry was asked to resolve (and load) the model first.  This
refutes the claim that no model resolution occurs for such a request. -/
theorem C10_counterexample :
    remove_background (fun _ => true) initialRegistry
        { contentTypeImage := true, modelName := "rmbg2", payloadEmpty := true,
          payloadDecodes := false, enableRefinement := false }
      = [Ev.resolveModel "rmbg2", Ev.errorResponse 400 "Empty file received"]
    ∧ Ev.resolveModel "rmbg2"
      ∈ remove_background (fun _ => true) initialRegistry
          { contentTypeImage := true, modelName := "rmbg2", payloadEmpty := true,
            payloadDecodes := false, enableRefinement := false } := by
  refine ⟨by decide, by decide⟩

/-- C10 amended: a request with empty image bytes receives the
InvalidInput response Empty file received, but only after model
resolution: the orchestrator calls registry.get_model(model) before
reading and validating the payload, so the resolve event precedes the
error response in every such trace. -/
theorem C10_theorem (loadOk : String → Bool) (reg : RegState) (req : Request)
    (inst : MInst) (s2 : RegState)
    (h1 : req.contentTypeImage = true)
    (h2 : req.payloadEmpty = true)
    (h3 : get_model loadOk reg req.modelName true = (some inst, s2)) :
    remove_background loadOk reg req
      = [Ev.resolveModel req.modelName, Ev.errorResponse 400 "Empty file received"] := by
  have h4 : (get_model loadOk reg req.modelName true).1 = some inst := by rw [h3]
  simp [remove_background, h1, h2, h4]

/-- C10 witness: the resolve-before-validation trace evaluated on a
concrete empty-payload request for ben2. -/
theorem C10_witness :
    remove_background (fun _ => true) initialRegistry
        { contentTypeImage := true, modelName := "ben2", payloadEmpty := true,
          payloadDecodes := false, enableRefinement := false }
      = [Ev.resolveModel "ben2", Ev.errorResponse 400 "Empty file received"] :=
  C10_theorem (fun _ => true) initialRegistry
    { contentTypeImage := true, modelName := "ben2", payloadEmpty := true,
      payloadDecodes := false, enableRefinement := false }
    { objId := 0, name := "ben2", loadCalls := 1, weightsLoaded := true }
    { models := ["rmbg2", "ben2", "birefnet"],
      instances :=
        [("ben2", { objId := 0, name := "ben2", loadCalls := 1, weightsLoaded := true })],
      nextId := 1 }
    rfl rfl (by decide)

end PicT
